import Mathlib

/-!
Verification of the esp32-drawer web-drawing firmware.

Shallow embedding of the device's core logic:
* `ResponseBuffer` — `src/buffer.rs`, the fixed-capacity compose buffer;
* `Request` / `Request.parseRequest` — `src/lib.rs`, the single-pass request parser;
* `getRequest` — `src/lib.rs`, the read-until-terminator loop;
* `dispatch` / `scanGrid` / `applyCoordinates` — `src/bin/tasks/backend.rs`, the
  grid state and the per-request command dispatch;
* `signalSend` / `signalWait` — the single-slot update signal.

Bytes are modelled as `Nat` (the Rust code never does byte arithmetic that could
overflow, it only compares and copies bytes, so no `% 256` is needed).  A Rust
panic (out-of-bounds index, `Option::unwrap` on `None`) is modelled by an
`Option`-valued result being `none`.  Rust functions that mutate `&mut self` are
modelled functionally: they take the old state and return the new one.
-/

set_option autoImplicit false
set_option maxRecDepth 8000

namespace Esp32Drawer

/-! ## Fixed-capacity response buffer (`src/buffer.rs`)

`ResponseBuffer<const S: usize>` owns `buf: [u8; S]` and a cursor `pos`.  The
capacity `S` is the length of `buf`; well-formed states satisfy
`buf.length = S` and `pos ≤ S` (`ResponseBuffer::new` establishes both).
`write` checks `self.pos + bytes.len() > self.buf.len()` and either reports
"Buffer is full" or copies `bytes` at the cursor and advances it; in this
functional embedding a failed `write` returns `.error` and the caller keeps the
unchanged input state. -/

structure ResponseBuffer (S : Nat) where
  buf : List Nat
  pos : Nat
deriving DecidableEq

/-- `ResponseBuffer::new`: an all-zero array and cursor 0. -/
def ResponseBuffer.new (S : Nat) : ResponseBuffer S :=
  { buf := List.replicate S 0, pos := 0 }

/-- `ResponseBuffer::buffer`: the bytes written so far, `&self.buf[..self.pos]`. -/
def ResponseBuffer.buffer {S : Nat} (rb : ResponseBuffer S) : List Nat :=
  rb.buf.take rb.pos

/-- `ResponseBuffer::write`: refuse when `pos + bytes.len() > buf.len()`,
otherwise copy `bytes` into `buf[pos..pos+bytes.len()]` and advance `pos`. -/
def ResponseBuffer.write {S : Nat} (rb : ResponseBuffer S) (bytes : List Nat) :
    Except String (ResponseBuffer S) :=
  if rb.pos + bytes.length > rb.buf.length then
    .error "Buffer is full"
  else
    .ok { buf := rb.buf.take rb.pos ++ bytes ++ rb.buf.drop (rb.pos + bytes.length),
          pos := rb.pos + bytes.length }

/-- C4: for a `ResponseBuffer` of capacity `C = S` holding `L = rb.pos` bytes,
`write bytes` succeeds exactly when `L + bytes.length ≤ C`; on success `buffer()`
afterwards returns exactly the old contents followed by `bytes` (so `L + n` bytes
in total), and on overflow `write` reports "Buffer is full" (the functional
embedding returns the untouched input state to the caller by construction). -/
theorem claim_C4_write (S : Nat) (rb : ResponseBuffer S) (bytes : List Nat)
    (hlen : rb.buf.length = S) (hpos : rb.pos ≤ S) :
    (rb.pos + bytes.length ≤ S →
      ∃ rb2 : ResponseBuffer S, rb.write bytes = Except.ok rb2 ∧
        rb2.buffer = rb.buffer ++ bytes ∧
        rb2.buffer.length = rb.pos + bytes.length ∧
        rb2.buf.length = S ∧ rb2.pos = rb.pos + bytes.length) ∧
    (S < rb.pos + bytes.length → rb.write bytes = Except.error "Buffer is full") := by
  have hA : (rb.buf.take rb.pos).length = rb.pos := by
    simp [List.length_take]
    omega
  constructor
  · intro h
    have hbig : (rb.buf.take rb.pos ++ bytes ++ rb.buf.drop (rb.pos + bytes.length)).take
        (rb.pos + bytes.length) = rb.buf.take rb.pos ++ bytes := by
      have h1 : (rb.buf.take rb.pos).take (rb.pos + bytes.length) = rb.buf.take rb.pos :=
        List.take_of_length_le (by rw [hA]; omega)
      have h2 : rb.pos + bytes.length - (rb.buf.take rb.pos).length = bytes.length := by
        rw [hA]; omega
      rw [List.append_assoc, List.take_append_eq_append_take, h1, h2,
        List.take_append_eq_append_take, List.take_length, Nat.sub_self, List.take_zero,
        List.append_nil]
    refine ⟨⟨rb.buf.take rb.pos ++ bytes ++ rb.buf.drop (rb.pos + bytes.length),
      rb.pos + bytes.length⟩, ?_, ?_, ?_, ?_, rfl⟩
    · unfold ResponseBuffer.write
      rw [if_neg (by omega)]
    · show (rb.buf.take rb.pos ++ bytes ++ rb.buf.drop (rb.pos + bytes.length)).take
        (rb.pos + bytes.length) = rb.buf.take rb.pos ++ bytes
      exact hbig
    · show ((rb.buf.take rb.pos ++ bytes ++ rb.buf.drop (rb.pos + bytes.length)).take
        (rb.pos + bytes.length)).length = rb.pos + bytes.length
      rw [hbig, List.length_append, hA]
    · show (rb.buf.take rb.pos ++ bytes ++ rb.buf.drop (rb.pos + bytes.length)).length = S
      simp [List.length_append, List.length_take, List.length_drop]
      omega
  · intro h
    unfold ResponseBuffer.write
    rw [if_pos (by omega)]

/-- Witness for C4: writing two bytes into a fresh buffer of capacity 4. -/
theorem claim_C4_write_witness :
    ∃ rb2 : ResponseBuffer 4, (ResponseBuffer.new 4).write [1, 2] = Except.ok rb2 ∧
      rb2.buffer = (ResponseBuffer.new 4).buffer ++ [1, 2] ∧
      rb2.buffer.length = (ResponseBuffer.new 4).pos + [1, 2].length ∧
      rb2.buf.length = 4 ∧ rb2.pos = (ResponseBuffer.new 4).pos + [1, 2].length :=
  (claim_C4_write 4 (ResponseBuffer.new 4) [1, 2] rfl (by decide)).1 (by decide)

/-! ## Request parsing (`src/lib.rs`, `Request::parse_request`)

The Rust parser runs on `core::str::from_utf8(buffer)`; when that fails it
leaves every field unchanged.  The embedding takes the decoding result directly
as an `Option String` (the UTF-8 decoder itself is `core`'s, external to this
repository); `none` is `from_utf8`'s `Err` case.  The borrow-plumbing fields
`buffer`/`rb` of `Request<'a, S>` (set by `set_request_buffer`) are replaced by
that explicit argument.  The `headers` array is `[Option<&str>; 32]`. -/

/-- Rust `str::split("\r\n")`: split into the (possibly empty) chunks between
non-overlapping occurrences of CR LF, scanning left to right. -/
def splitSeq : List Char → List (List Char)
  | [] => [[]]
  | '\r' :: '\n' :: rest => [] :: splitSeq rest
  | c :: rest =>
    match splitSeq rest with
    | [] => [[c]]
    | h :: t => (c :: h) :: t

/-- Rust `str::split(' ')`: split on every space character. -/
def splitSpace : List Char → List (List Char)
  | [] => [[]]
  | c :: rest =>
    if c.toNat = 32 then [] :: splitSpace rest
    else
      match splitSpace rest with
      | [] => [[c]]
      | h :: t => (c :: h) :: t

/-- Rust `str::trim_matches(char::from(0))`: strip NUL characters from both
ends of the slice. -/
def trimNul (s : String) : String :=
  String.mk (((s.data.dropWhile (fun c => c = Char.ofNat 0)).reverse.dropWhile
    (fun c => c = Char.ofNat 0)).reverse)

/-- `Request<'a, S>` without its two borrow fields: parse results only. -/
structure Request where
  method : Option String
  path : Option String
  headers : List (Option String)
  data : Option String
deriving DecidableEq

/-- `Request::new`: every field unset; `headers` is `[None; 32]`. -/
def Request.new : Request :=
  { method := none, path := none, headers := List.replicate 32 none, data := none }

/-- The header loop of `parse_request`: walk the lines after the request line,
stop at the first empty line (returning the lines still unconsumed), and store
each non-empty line at index `pos` of the 32-entry header array.  The Rust
assignment `self.headers[pos] = Some(line)` has no bound check: when `pos`
reaches 32 it indexes out of bounds, modelled as `none` (panic). -/
def headerLoop : List String → Nat → List (Option String) →
    Option (List (Option String) × List String)
  | [], _, hs => some (hs, [])
  | line :: rest, pos, hs =>
    if line = "" then some (hs, rest)
    else if pos < 32 then headerLoop rest (pos + 1) (hs.set pos (some line))
    else none

/-- `Request::parse_request`.  `decoded` is `core::str::from_utf8(buffer)`
(`none` = invalid UTF-8, in which case nothing is touched).  Otherwise: split on
CR LF, split the first line on spaces into method and path (missing tokens
become `""` via `unwrap_or`), run the header loop, and take the next line —
trimmed of NUL padding — as the body.  A `none` result models the header-array
panic. -/
def Request.parseRequest (decoded : Option String) (req : Request) : Option Request :=
  match decoded with
  | none => some req
  | some result =>
    let lines := (splitSeq result.data).map String.mk
    let firstLine := lines.headD ""
    let parts := (splitSpace firstLine.data).map String.mk
    let method := parts.headD ""
    let path := (parts.drop 1).headD ""
    match headerLoop (lines.drop 1) 0 req.headers with
    | none => none
    | some (hs, rest) =>
      some { req with
              method := some method
              path := some path
              headers := hs
              data := some (trimNul (rest.headD "")) }

/-- The C5 test request, zero-padded to the 512-byte request-buffer capacity
(31 content bytes + 481 NUL bytes), as decoded by `from_utf8`. -/
def c5input : String :=
  "GET /data HTTP/1.1\r\nHost: x\r\n\r\n" ++ String.mk (List.replicate 481 (Char.ofNat 0))

/-- C5 counterexample: parsing the C5 buffer does NOT leave the body unset —
the parser unconditionally stores `Some` for `data`, here `Some ""`
(present but empty), never `None`. -/
theorem claim_C5_counterexample :
    (Request.parseRequest (some c5input) Request.new).map Request.data ≠ some none ∧
    (Request.parseRequest (some c5input) Request.new).map Request.data = some (some "") := by
  constructor
  · decide
  · decide

/-- C5 as amended: parsing `"GET /data HTTP/1.1\r\nHost: x\r\n\r\n"` (zero-padded
to capacity) yields method `"GET"`, path `"/data"`, and a body that is present
but empty (`Some ""` after NUL trimming), not unset. -/
theorem claim_C5_parse :
    (Request.parseRequest (some c5input) Request.new).map
      (fun r => (r.method, r.path, r.data)) = some (some "GET", some "/data", some "") := by
  decide

/-- A request whose decoded text has 33 non-empty header lines before any empty
line; it fits easily in the 512-byte request buffer. -/
def c2input : String :=
  "GET / HTTP/1.1\r\n" ++ String.join (List.replicate 33 "a\r\n")

/-- C2 counterexample: on a buffer with 33 header lines before the blank line,
`parse_request` panics (the assignment `self.headers[32] = Some(line)` indexes
out of bounds), modelled by the `none` result — it does not consume the extra
lines without storing them. -/
theorem claim_C2_counterexample :
    Request.parseRequest (some c2input) Request.new = none := by
  decide

/-- The header loop panics exactly when more than `32 - pos` non-empty lines
precede the first empty line. -/
theorem headerLoop_eq_none_iff (lines : List String) (pos : Nat)
    (hs : List (Option String)) (hpos : pos ≤ 32) :
    (headerLoop lines pos hs = none ↔
      32 < pos + (lines.takeWhile (fun l => !(l == ""))).length) := by
  induction lines generalizing pos hs with
  | nil => simp [headerLoop]; omega
  | cons line rest ih =>
    by_cases hline : line = ""
    · subst hline
      simp [headerLoop]; omega
    · have hbeq : (!(line == "")) = true := by simp [hline]
      rw [headerLoop, if_neg hline, List.takeWhile_cons, if_pos hbeq]
      by_cases hp : pos < 32
      · rw [if_pos hp, ih (pos + 1) _ (by omega)]
        simp only [List.length_cons]
        omega
      · rw [if_neg hp]
        simp only [List.length_cons]
        constructor
        · intro _; omega
        · intro _; trivial

/-- C2 as amended: `parse_request` completes without panicking on a decoded
buffer if and only if at most 32 non-empty header lines precede the first empty
line; with 33 or more, the write `self.headers[pos]` at `pos = 32` is out of
bounds (a panic) — the extra lines are not observed-but-dropped. -/
theorem claim_C2_amended (s : String) (req : Request) :
    Request.parseRequest (some s) req = none ↔
      32 < ((((splitSeq s.data).map String.mk).drop 1).takeWhile
        (fun l => !(l == ""))).length := by
  have h := headerLoop_eq_none_iff (((splitSeq s.data).map String.mk).drop 1) 0 req.headers
    (by omega)
  rw [Nat.zero_add] at h
  rw [Request.parseRequest, ← h]
  cases hhl : headerLoop (((splitSeq s.data).map String.mk).drop 1) 0 req.headers with
  | none => simp
  | some p => simp

/-- C10: whenever `parse_request` completes (no header-array panic) on a freshly
constructed `Request`, the `method`, `path` and `data` fields are all `Some`
when the buffer decoded as UTF-8 and all `None` when it did not; in particular
`method.is_some()` implies `data.is_some()`, so the dispatcher's
`request.data.unwrap()` in the `POST /data` arm (reached only under
`Some("POST")`) cannot panic. -/
theorem claim_C10_parse_fields (decoded : Option String) (r : Request)
    (h : Request.parseRequest decoded Request.new = some r) :
    ((decoded = none ∧ r.method = none ∧ r.path = none ∧ r.data = none) ∨
      (decoded.isSome = true ∧ r.method.isSome = true ∧ r.path.isSome = true ∧
        r.data.isSome = true)) ∧
    (r.method.isSome = true → r.data.isSome = true) := by
  cases decoded with
  | none =>
    rw [Request.parseRequest] at h
    have hr : r = Request.new := by
      cases h; rfl
    subst hr
    refine ⟨Or.inl ⟨rfl, rfl, rfl, rfl⟩, ?_⟩
    intro hm
    simp [Request.new] at hm
  | some s =>
    rw [Request.parseRequest] at h
    cases hhl : headerLoop (((splitSeq s.data).map String.mk).drop 1) 0 Request.new.headers with
    | none =>
      rw [hhl] at h
      cases h
    | some p =>
      rw [hhl] at h
      cases h
      exact ⟨Or.inr ⟨rfl, rfl, rfl, rfl⟩, fun _ => rfl⟩

/-- Witness for C10 at the concrete buffer `"x"`: the parsed request has
`data` present, so `unwrap` is safe. -/
theorem claim_C10_witness :
    (⟨some "x", some "", List.replicate 32 none, some ""⟩ : Request).data.isSome = true :=
  (claim_C10_parse_fields (some "x")
    ⟨some "x", some "", List.replicate 32 none, some ""⟩ (by decide)).2 (by decide)

/-! ## Reading a request (`src/lib.rs`, `get_request`)

`get_request` loops on `socket.read(request_buffer.buffer_mut())`.  Note that
`buffer_mut()` is `&mut self.buf` — the WHOLE array, so every read writes from
offset 0.  After a read of `len` bytes it slices `&buffer()[..pos + len]`
(a panic when `pos + len` exceeds the array length), UTF-8-decodes it (on a
decode error it only logs and continues without advancing `pos`), and stops
once the slice contains `"\r\n\r\n"`.  A zero-byte read returns
`Err(ConnectionReset)`; a read error is returned unchanged.

The transport source is modelled as the list of results its successive `read`
calls produce: `Except.ok bytes` delivers `bytes` into the front of the buffer,
`Except.error e` is a transport failure. -/

/-- `embassy_net::tcp::Error`.  The real (external) enum declares only
`ConnectionReset`; the `other` variant keeps the model's propagation of read
errors generic rather than collapsing every error into one value. -/
inductive TcpError where
  | connectionReset
  | other (code : Nat)
deriving DecidableEq

/-- Outcome of running the `get_request` loop against a finite source. -/
inductive GetResult where
  /-- The source list ran out while the loop was still waiting for more data. -/
  | pending
  /-- The slice `&buffer()[..pos + len]` was out of range. -/
  | panicked
  /-- The loop returned, with the final buffer contents on success. -/
  | done (r : Except TcpError (List Nat))

/-- A UTF-8 continuation byte. -/
def utf8Cont (b : Nat) : Bool := 0x80 ≤ b && b ≤ 0xBF

/-- Whether a byte sequence is valid UTF-8 (`core::str::from_utf8` succeeds):
the standard well-formedness table over 1- to 4-byte sequences. -/
def utf8Valid : List Nat → Bool
  | [] => true
  | b :: rest =>
    if b ≤ 0x7F then utf8Valid rest
    else if 0xC2 ≤ b && b ≤ 0xDF then
      match rest with
      | c1 :: r => utf8Cont c1 && utf8Valid r
      | [] => false
    else if b = 0xE0 then
      match rest with
      | c1 :: c2 :: r => (0xA0 ≤ c1 && c1 ≤ 0xBF) && utf8Cont c2 && utf8Valid r
      | _ => false
    else if (0xE1 ≤ b && b ≤ 0xEC) || b = 0xEE || b = 0xEF then
      match rest with
      | c1 :: c2 :: r => utf8Cont c1 && utf8Cont c2 && utf8Valid r
      | _ => false
    else if b = 0xED then
      match rest with
      | c1 :: c2 :: r => (0x80 ≤ c1 && c1 ≤ 0x9F) && utf8Cont c2 && utf8Valid r
      | _ => false
    else if b = 0xF0 then
      match rest with
      | c1 :: c2 :: c3 :: r => (0x90 ≤ c1 && c1 ≤ 0xBF) && utf8Cont c2 && utf8Cont c3 && utf8Valid r
      | _ => false
    else if 0xF1 ≤ b && b ≤ 0xF3 then
      match rest with
      | c1 :: c2 :: c3 :: r => utf8Cont c1 && utf8Cont c2 && utf8Cont c3 && utf8Valid r
      | _ => false
    else if b = 0xF4 then
      match rest with
      | c1 :: c2 :: c3 :: r => (0x80 ≤ c1 && c1 ≤ 0x8F) && utf8Cont c2 && utf8Cont c3 && utf8Valid r
      | _ => false
    else false

/-- `str::contains("\r\n\r\n")` on the decoded slice: for valid UTF-8 this is
exactly the byte subsequence CR LF CR LF occurring contiguously (ASCII bytes
never occur inside a multi-byte sequence). -/
def hasTerminator : List Nat → Bool
  | 13 :: 10 :: 13 :: 10 :: _ => true
  | _ :: b :: c :: d :: rest => hasTerminator (b :: c :: d :: rest)
  | _ => false

/-- `get_request`, run against a finite list of read results.  `buf` is the
current request-buffer contents and `pos` the accumulated-length counter. -/
def getRequest (events : List (Except TcpError (List Nat))) (buf : List Nat)
    (pos : Nat) : GetResult :=
  match events with
  | [] => GetResult.pending
  | Except.error e :: _ => GetResult.done (Except.error e)
  | Except.ok bytes :: rest =>
    if bytes.length = 0 then GetResult.done (Except.error TcpError.connectionReset)
    else
      let buf2 := bytes ++ buf.drop bytes.length
      if buf2.length < pos + bytes.length then GetResult.panicked
      else
        let region := buf2.take (pos + bytes.length)
        if utf8Valid region then
          if hasTerminator region then GetResult.done (Except.ok buf2)
          else getRequest rest buf2 (pos + bytes.length)
        else getRequest rest buf2 pos

/-- C3 counterexample: a source that delivers "AB" and then "CD\r\n\r\n".
`get_request` returns Ok, but the final buffer starts with the SECOND read's
bytes — the first read's bytes "AB" were overwritten, not preserved, because
every `socket.read` call receives the whole buffer, not the remaining free
region. -/
theorem claim_C3_counterexample :
    getRequest [Except.ok [65, 66], Except.ok [67, 68, 13, 10, 13, 10]]
      (List.replicate 16 0) 0 =
      GetResult.done (Except.ok ([67, 68, 13, 10, 13, 10] ++ List.replicate 10 0)) ∧
    ([67, 68, 13, 10, 13, 10] ++ List.replicate 10 0).take 2 ≠ [65, 66] := by
  constructor
  · rfl
  · decide

/-- C3 as amended: each successful read of `n > 0` bytes is written at OFFSET 0
of the buffer (overwriting previously received bytes and keeping the old tail),
and the loop returns `Ok` with that buffer once the first `pos + n` bytes
decode as UTF-8 and contain the CR LF CR LF terminator; a zero-byte read
returns `Err(ConnectionReset)` and a transport error is returned verbatim. -/
theorem claim_C3_amended :
    (∀ (rest : List (Except TcpError (List Nat))) (buf : List Nat) (pos : Nat),
      getRequest (Except.ok [] :: rest) buf pos =
        GetResult.done (Except.error TcpError.connectionReset)) ∧
    (∀ (e : TcpError) (rest : List (Except TcpError (List Nat))) (buf : List Nat) (pos : Nat),
      getRequest (Except.error e :: rest) buf pos = GetResult.done (Except.error e)) ∧
    (∀ (bytes : List Nat) (rest : List (Except TcpError (List Nat))) (buf : List Nat) (pos : Nat),
      bytes ≠ [] → bytes.length ≤ buf.length → pos + bytes.length ≤ buf.length →
      utf8Valid ((bytes ++ buf.drop bytes.length).take (pos + bytes.length)) = true →
      hasTerminator ((bytes ++ buf.drop bytes.length).take (pos + bytes.length)) = true →
      getRequest (Except.ok bytes :: rest) buf pos =
        GetResult.done (Except.ok (bytes ++ buf.drop bytes.length))) := by
  refine ⟨?_, ?_, ?_⟩
  · intro rest buf pos
    rw [getRequest]
    simp
  · intro e rest buf pos
    rw [getRequest]
  · intro bytes rest buf pos h0 h1 h2 h3 h4
    have hne : ¬ bytes.length = 0 := by simpa using h0
    have hlen2 : (bytes ++ buf.drop bytes.length).length = buf.length := by
      simp
      omega
    rw [getRequest]
    rw [if_neg hne]
    show (if (bytes ++ buf.drop bytes.length).length < pos + bytes.length then GetResult.panicked
      else
        if utf8Valid ((bytes ++ buf.drop bytes.length).take (pos + bytes.length)) = true then
          if hasTerminator ((bytes ++ buf.drop bytes.length).take (pos + bytes.length)) = true then
            GetResult.done (Except.ok (bytes ++ buf.drop bytes.length))
          else getRequest rest (bytes ++ buf.drop bytes.length) (pos + bytes.length)
        else getRequest rest (bytes ++ buf.drop bytes.length) pos) =
      GetResult.done (Except.ok (bytes ++ buf.drop bytes.length))
    rw [if_neg (by rw [hlen2]; omega), if_pos h3, if_pos h4]

/-- Witness for C3 (amended): a single read delivering "GET\r\n\r\n" into a
fresh 32-byte buffer terminates with Ok and that content. -/
theorem claim_C3_witness :
    getRequest [Except.ok [71, 69, 84, 13, 10, 13, 10]] (List.replicate 32 0) 0 =
      GetResult.done (Except.ok ([71, 69, 84, 13, 10, 13, 10] ++
        (List.replicate 32 0).drop [71, 69, 84, 13, 10, 13, 10].length)) :=
  claim_C3_amended.2.2 [71, 69, 84, 13, 10, 13, 10] [] (List.replicate 32 0) 0
    (by decide) (by decide) (by decide) (by decide) (by decide)

/-! ## Grid state and command dispatch (`src/bin/tasks/backend.rs`)

`GridData` is `data: [[u8; 80]; 64]`, modelled as a list of 64 rows of 80
bytes.  The request dispatch of `task_loop` (per accepted connection, after
`parse_request`) is modelled by `dispatch`, which maps the parsed request and
the task state (grid + update-signal slot) to `none` on panic or
`some (newState, statusCode, payload)` where `payload` is the coordinate list a
`GET /data` response serializes (JSON serialization itself is external
`serde_json_core`).  The response-buffer composition around it is covered by
the `ResponseBuffer` theorems. -/

/-- `ScreenSignal` (declared in the library crate; its declaration is not under
`src/`).  Modelled from the spec: a tagged value, either "replace with this
coordinate batch" (a fixed-capacity list of optional coordinates) or "clear" —
matching its uses `ScreenSignal::Coordinate(coord_list)` / `ScreenSignal::Clear`
in `backend.rs` and `screen.rs`. -/
inductive ScreenSignal where
  | Coordinate (coords : List (Option (Nat × Nat)))
  | Clear
deriving DecidableEq

/-- Modelled from the spec: the single-slot overwrite Update Signal
(`embassy_sync::signal::Signal`, an external collaborator): "a single-slot,
overwrite-on-send notification channel"; `signal` stores the new value,
discarding any pending one. -/
def signalSend (_s : Option ScreenSignal) (v : ScreenSignal) : Option ScreenSignal :=
  some v

/-- Modelled from the spec: the consumer's `wait` — it blocks until a value is
present (`none` here means it would keep waiting) and takes the pending value,
leaving the slot empty. -/
def signalWait : Option ScreenSignal → Option (ScreenSignal × Option ScreenSignal)
  | some v => some (v, none)
  | none => none

/-- The grid: 64 rows × 80 columns of byte cells, 0 = empty. -/
abbrev Grid := List (List Nat)

/-- `GridData { data: [[0; 80]; 64] }`. -/
def Grid.empty : Grid := List.replicate 64 (List.replicate 80 0)

/-- Shape invariant of `[[u8; 80]; 64]`. -/
def WFGrid (g : Grid) : Prop := g.length = 64 ∧ ∀ row ∈ g, row.length = 80

/-- `grid_data.data[r][c] = 1`: Rust's index operator bounds-checks against the
actual array lengths and panics (here `none`) when out of range. -/
def setCell (g : Grid) (r c : Nat) : Option Grid :=
  match g.get? r with
  | none => none
  | some row => if c < row.length then some (g.set r (row.set c 1)) else none

/-- The write loop of the `POST /data` arm:
`for coordinate in coord_list.iter().flatten() { grid[coordinate.0][coordinate.1] = 1 }`. -/
def applyCoordinates : List (Option (Nat × Nat)) → Grid → Option Grid
  | [], g => some g
  | none :: rest, g => applyCoordinates rest g
  | some (r, c) :: rest, g =>
    match setCell g r c with
    | some g2 => applyCoordinates rest g2
    | none => none

/-- The inner loop of the `GET /data` scan:
`for (c_idx, col) in row.iter().enumerate()`, collecting `(r_idx, c_idx)` for
nonzero cells while `position < coordinates.coords.len()` (the 256-slot
`CoordinateList`); `position` is the number of coordinates collected so far. -/
def scanRowCells (rIdx cIdx : Nat) : List Nat → List (Nat × Nat) → List (Nat × Nat)
  | [], acc => acc
  | v :: rest, acc =>
    scanRowCells rIdx (cIdx + 1) rest
      (if v ≠ 0 ∧ acc.length < 256 then acc ++ [(rIdx, cIdx)] else acc)

/-- The outer loop of the scan: `for (r_idx, row) in grid_data.data.iter().enumerate()`. -/
def scanRows (rIdx : Nat) : Grid → List (Nat × Nat) → List (Nat × Nat)
  | [], acc => acc
  | row :: rest, acc => scanRows (rIdx + 1) rest (scanRowCells rIdx 0 row acc)

/-- The `GET /data` scan: row-major, capped at 256 collected coordinates; the
serializer then emits exactly the collected coordinates in order
(`ignore_none` skips the empty slots of the `CoordinateList`). -/
def scanGrid (g : Grid) : List (Nat × Nat) :=
  scanRows 0 g []

/-- Modelled from the spec: the `Coordinates` payload type (declared in the
library crate; its declaration is not under `src/`) and its external
`serde_json_core` decoding — "body is a JSON array of up to a fixed number of
`[row, col]` pairs (or nulls)" with the fixed capacity 256 of the coordinate
batch.  `parseCoordItem` reads one `null` or one `[r,c]` pair. -/
def parseCoordNat (l : List Char) : Option (Nat × List Char) :=
  let ds := l.takeWhile (fun c => c.isDigit)
  if ds.isEmpty then none
  else some (ds.foldl (fun acc c => acc * 10 + (c.toNat - 48)) 0,
    l.dropWhile (fun c => c.isDigit))

/-- One element of the coordinate array: `null` or `[r,c]`. -/
def parseCoordItem : List Char → Option (Option (Nat × Nat) × List Char)
  | 'n' :: 'u' :: 'l' :: 'l' :: r => some (none, r)
  | '[' :: r =>
    match parseCoordNat r with
    | none => none
    | some (a, r1) =>
      match r1 with
      | ',' :: r2 =>
        match parseCoordNat r2 with
        | none => none
        | some (b, r3) =>
          match r3 with
          | ']' :: r4 => some (some (a, b), r4)
          | _ => none
      | _ => none
  | _ => none

/-- The comma-separated tail of the coordinate array, until `]`. -/
def parseCoordItemsAux : Nat → List Char → List (Option (Nat × Nat)) →
    Option (List (Option (Nat × Nat)) × List Char)
  | 0, _, _ => none
  | fuel + 1, l, acc =>
    match l with
    | ']' :: r => some (acc.reverse, r)
    | ',' :: r =>
      match parseCoordItem r with
      | some (it, r2) => parseCoordItemsAux fuel r2 (it :: acc)
      | none => none
    | _ => none

/-- Decoding a request body into a coordinate batch (see `parseCoordItem`). -/
def decodeCoordinates (s : String) : Option (List (Option (Nat × Nat))) :=
  match s.data with
  | '[' :: r =>
    match r with
    | ']' :: _ => some []
    | _ =>
      match parseCoordItem r with
      | some (it, r2) =>
        match parseCoordItemsAux (r2.length + 1) r2 [it] with
        | some (items, _) => if items.length ≤ 256 then some items else none
        | none => none
      | none => none
  | _ => none

/-- The state owned by the backend task: the grid and the update-signal slot. -/
structure BackendState where
  grid : Grid
  slot : Option ScreenSignal
deriving DecidableEq

/-- The request dispatch of `backend.rs::task_loop`, lines 89–157: match on
`request.method` / `request.path`; `GET /data` scans the grid into a payload
with status 200; `POST /data` does `request.data.unwrap()` (panic when `data`
is `None`), decodes it, and on success first signals
`ScreenSignal::Coordinate` and then sets each listed cell (an out-of-bounds
coordinate panics); a decode failure only logs and still answers 200;
`POST /clear` overwrites the grid with `[[0; 80]; 64]` and signals `Clear`;
everything else answers 404.  `none` models a panic. -/
def dispatch (request : Request) (st : BackendState) :
    Option (BackendState × Nat × Option (List (Nat × Nat))) :=
  match request.method with
  | some "GET" =>
    match request.path with
    | some "/data" => some (st, 200, some (scanGrid st.grid))
    | _ => some (st, 404, none)
  | some "POST" =>
    match request.path with
    | some "/data" =>
      match request.data with
      | none => none
      | some body =>
        match decodeCoordinates body with
        | some coordList =>
          let st1 : BackendState := { st with slot := signalSend st.slot (ScreenSignal.Coordinate coordList) }
          match applyCoordinates coordList st1.grid with
          | some g2 => some ({ st1 with grid := g2 }, 200, none)
          | none => none
        | none => some (st, 200, none)
    | some "/clear" =>
      some ({ grid := Grid.empty, slot := signalSend st.slot ScreenSignal.Clear }, 200, none)
    | _ => some (st, 404, none)
  | _ => some (st, 404, none)

/-- Scanning an all-zero row collects nothing. -/
theorem scanRowCells_zero (rIdx : Nat) : ∀ (n cIdx : Nat) (acc : List (Nat × Nat)),
    scanRowCells rIdx cIdx (List.replicate n 0) acc = acc := by
  intro n
  induction n with
  | zero => intro cIdx acc; rfl
  | succ m ih =>
    intro cIdx acc
    rw [List.replicate_succ, scanRowCells]
    rw [if_neg (by simp)]
    exact ih (cIdx + 1) acc

/-- Scanning an all-zero row with one cell set to 1 at column `j` collects
exactly that coordinate (while under the 256 cap). -/
theorem scanRowCells_one (rIdx : Nat) : ∀ (n j cIdx : Nat) (acc : List (Nat × Nat)),
    j < n → acc.length < 256 →
    scanRowCells rIdx cIdx ((List.replicate n 0).set j 1) acc = acc ++ [(rIdx, cIdx + j)] := by
  intro n
  induction n with
  | zero => intro j cIdx acc hj; omega
  | succ m ih =>
    intro j cIdx acc hj hlen
    cases j with
    | zero =>
      rw [List.replicate_succ, List.set_cons_zero, scanRowCells]
      rw [if_pos (by constructor <;> simp [hlen])]
      rw [scanRowCells_zero, Nat.add_zero]
    | succ j' =>
      rw [List.replicate_succ, List.set_cons_succ, scanRowCells]
      rw [if_neg (by simp)]
      rw [ih j' (cIdx + 1) acc (by omega) hlen]
      have : cIdx + 1 + j' = cIdx + (j' + 1) := by omega
      rw [this]

/-- Scanning any number of all-zero rows collects nothing. -/
theorem scanRows_zero : ∀ (n rIdx : Nat) (acc : List (Nat × Nat)),
    scanRows rIdx (List.replicate n (List.replicate 80 0)) acc = acc := by
  intro n
  induction n with
  | zero => intro rIdx acc; rfl
  | succ m ih =>
    intro rIdx acc
    rw [List.replicate_succ, scanRows, scanRowCells_zero]
    exact ih (rIdx + 1) acc

/-- The row-major scan of the empty grid collects no coordinates. -/
theorem scanGrid_empty : scanGrid Grid.empty = [] := by
  rw [scanGrid, Grid.empty]
  exact scanRows_zero 64 0 []

/-- C9: for every grid state, `POST /clear` replaces the whole matrix with
`[[0; 80]; 64]` and signals `Clear`, answering 200; a `GET /data` handled
afterwards (no intervening `POST /data`) scans the empty grid and returns the
empty coordinate list. -/
theorem claim_C9_clear_then_get (g : Grid) (slot : Option ScreenSignal)
    (hdrs : List (Option String)) (bd : Option String) :
    dispatch ⟨some "POST", some "/clear", hdrs, bd⟩ ⟨g, slot⟩ =
      some (⟨Grid.empty, signalSend slot ScreenSignal.Clear⟩, 200, none) ∧
    dispatch ⟨some "GET", some "/data", hdrs, some ""⟩
        ⟨Grid.empty, signalSend slot ScreenSignal.Clear⟩ =
      some (⟨Grid.empty, signalSend slot ScreenSignal.Clear⟩, 200, some []) := by
  constructor
  · rfl
  · have h : dispatch ⟨some "GET", some "/data", hdrs, some ""⟩
        ⟨Grid.empty, signalSend slot ScreenSignal.Clear⟩ =
        some (⟨Grid.empty, signalSend slot ScreenSignal.Clear⟩, 200,
          some (scanGrid Grid.empty)) := rfl
    rw [h, scanGrid_empty]

/-- `setCell` preserves the 64×80 shape of the grid. -/
theorem setCell_wf {g g2 : Grid} {r c : Nat} (h : setCell g r c = some g2)
    (hwf : WFGrid g) : WFGrid g2 := by
  cases hrow : g.get? r with
  | none =>
    unfold setCell at h
    rw [hrow] at h
    exact Option.noConfusion h
  | some row =>
    unfold setCell at h
    rw [hrow] at h
    have h2 : (if c < row.length then some (g.set r (row.set c 1)) else none) = some g2 := h
    by_cases hc : c < row.length
    · rw [if_pos hc] at h2
      cases h2
      constructor
      · rw [List.length_set]; exact hwf.1
      · intro row2 hmem
        rcases List.mem_or_eq_of_mem_set hmem with h1 | h1
        · exact hwf.2 row2 h1
        · subst h1; rw [List.length_set]; exact hwf.2 row (List.get?_mem hrow)
    · rw [if_neg hc] at h2
      exact Option.noConfusion h2

/-- Writing a cell outside the 64×80 bounds panics: `grid_data.data[r][c]`
bounds-checks against the actual row/column counts. -/
theorem setCell_oob {g : Grid} {r c : Nat} (hwf : WFGrid g)
    (hoob : 64 ≤ r ∨ 80 ≤ c) : setCell g r c = none := by
  unfold setCell
  cases hrow : g.get? r with
  | none => rfl
  | some row =>
    show (if c < row.length then some (g.set r (row.set c 1)) else none) = none
    have hr : r < g.length := by
      by_contra hcon
      rw [List.get?_eq_none.mpr (by omega)] at hrow
      cases hrow
    rcases hoob with h | h
    · exfalso
      have h1 := hwf.1
      omega
    · rw [if_neg (by rw [hwf.2 row (List.get?_mem hrow)]; omega)]

/-- If any coordinate present in the batch is out of the 64×80 bounds, the
cell-writing loop of the `POST /data` arm panics. -/
theorem applyCoordinates_oob : ∀ (coords : List (Option (Nat × Nat))) (g : Grid)
    (r c : Nat), WFGrid g → some (r, c) ∈ coords → 64 ≤ r ∨ 80 ≤ c →
    applyCoordinates coords g = none := by
  intro coords
  induction coords with
  | nil =>
    intro g r c _ hmem
    cases hmem
  | cons head rest ih =>
    intro g r c hwf hmem hoob
    cases head with
    | none =>
      rw [applyCoordinates]
      have hmem2 : some (r, c) ∈ rest := by
        rcases List.mem_cons.mp hmem with h | h
        · cases h
        · exact h
      exact ih g r c hwf hmem2 hoob
    | some p =>
      obtain ⟨r1, c1⟩ := p
      rw [applyCoordinates]
      cases hset : setCell g r1 c1 with
      | none => rfl
      | some g2 =>
        rcases List.mem_cons.mp hmem with h | h
        · cases h
          rw [setCell_oob hwf hoob] at hset
          cases hset
        · exact ih g2 r c (setCell_wf hset hwf) h hoob

/-- The empty grid has the 64×80 shape. -/
theorem WFGrid_empty : WFGrid Grid.empty := by
  constructor
  · simp [Grid.empty]
  · intro row hr
    rw [List.eq_of_mem_replicate hr]
    simp

/-- C1 counterexample: a `POST /data` request whose body decodes to the single
coordinate `(64, 0)` (row = 64 ≥ 64) makes the handler panic — the row index
is out of bounds of `[[u8; 80]; 64]` — instead of dropping the coordinate and
answering. -/
theorem claim_C1_counterexample :
    dispatch ⟨some "POST", some "/data", List.replicate 32 none, some "[[64,0]]"⟩
      ⟨Grid.empty, none⟩ = none := by
  decide

/-- C1 as amended: for every `POST /data` request whose decoded body contains a
coordinate pair `(r, c)` with `r ≥ 64` or `c ≥ 80`, handling the request
panics on the unchecked grid write `grid_data.data[r][c] = 1` — the coordinate
is not validated, dropped, or written, and no response is produced. -/
theorem claim_C1_oob_panics (g : Grid) (slot : Option ScreenSignal)
    (hdrs : List (Option String)) (body : String)
    (coords : List (Option (Nat × Nat))) (r c : Nat) (hwf : WFGrid g)
    (hdec : decodeCoordinates body = some coords)
    (hmem : some (r, c) ∈ coords) (hoob : 64 ≤ r ∨ 80 ≤ c) :
    dispatch ⟨some "POST", some "/data", hdrs, some body⟩ ⟨g, slot⟩ = none := by
  have happ := applyCoordinates_oob coords g r c hwf hmem hoob
  show (match decodeCoordinates body with
    | some coordList =>
      match applyCoordinates coordList g with
      | some g2 => some ((⟨g2, signalSend slot (ScreenSignal.Coordinate coordList)⟩ :
          BackendState), 200, none)
      | none => none
    | none => some (⟨⟨g, slot⟩, 200, none⟩ :
        BackendState × Nat × Option (List (Nat × Nat)))) = none
  rw [hdec]
  show (match applyCoordinates coords g with
    | some g2 => some ((⟨g2, signalSend slot (ScreenSignal.Coordinate coords)⟩ :
        BackendState), 200, none)
    | none => none) = none
  rw [happ]

/-- Witness for C1 (amended): posting `[[0,99]]` (column 99 ≥ 80) on the empty
grid panics. -/
theorem claim_C1_oob_panics_witness :
    dispatch ⟨some "POST", some "/data", List.replicate 32 none, some "[[0,99]]"⟩
      ⟨Grid.empty, none⟩ = none :=
  claim_C1_oob_panics Grid.empty none (List.replicate 32 none) "[[0,99]]"
    [some (0, 99)] 0 99 WFGrid_empty (by decide) (by decide) (by decide)

/-- C6: a `POST /data` request whose body fails to decode is a no-op — the
state (grid and update-signal slot) is returned unchanged, nothing is
signalled, and the status is still 200, not an error status. -/
theorem claim_C6_decode_failure_noop (st : BackendState)
    (hdrs : List (Option String)) (body : String)
    (hdec : decodeCoordinates body = none) :
    dispatch ⟨some "POST", some "/data", hdrs, some body⟩ st = some (st, 200, none) := by
  show (match decodeCoordinates body with
    | some coordList =>
      match applyCoordinates coordList st.grid with
      | some g2 => some ((⟨g2, signalSend st.slot (ScreenSignal.Coordinate coordList)⟩ :
          BackendState), 200, none)
      | none => none
    | none => some (st, 200, none)) = some (st, 200, none)
  rw [hdec]

/-- Witness for C6: the undecodable body `"x"` leaves the empty state alone
and answers 200. -/
theorem claim_C6_decode_failure_noop_witness :
    dispatch ⟨some "POST", some "/data", List.replicate 32 none, some "x"⟩
      ⟨Grid.empty, none⟩ = some (⟨Grid.empty, none⟩, 200, none) :=
  claim_C6_decode_failure_noop ⟨Grid.empty, none⟩ (List.replicate 32 none) "x" (by decide)

/-- The grid that results from posting `[[1,2],[3,4]]` on the empty grid:
cells (1,2) and (3,4) set, all other rows untouched. -/
def c7grid : Grid :=
  List.replicate 80 0 :: (List.replicate 80 0).set 2 1 :: List.replicate 80 0 ::
    (List.replicate 80 0).set 4 1 :: List.replicate 60 (List.replicate 80 0)

/-- One step of the outer scan loop. -/
theorem scanRows_cons (rIdx : Nat) (row : List Nat) (rest : Grid)
    (acc : List (Nat × Nat)) :
    scanRows rIdx (row :: rest) acc = scanRows (rIdx + 1) rest (scanRowCells rIdx 0 row acc) :=
  rfl

/-- C7: starting from the empty grid, `POST /data` with body `[[1,2],[3,4]]`
followed by `GET /data` answers 200 with exactly the coordinates (1,2) and
(3,4) in that order — the row-major scan (capped at 256 entries) finds them in
posting order. -/
theorem claim_C7_post_then_get :
    ((dispatch ⟨some "POST", some "/data", List.replicate 32 none, some "[[1,2],[3,4]]"⟩
        ⟨Grid.empty, none⟩).bind
      (fun res => dispatch ⟨some "GET", some "/data", List.replicate 32 none, some ""⟩
        res.1)).map (fun res => (res.2.1, res.2.2)) = some (200, some [(1, 2), (3, 4)]) := by
  have h2 : scanGrid c7grid = [(1, 2), (3, 4)] := by
    unfold scanGrid c7grid
    rw [scanRows_cons, scanRowCells_zero]
    rw [scanRows_cons, scanRowCells_one 1 80 2 0 [] (by omega) (by decide)]
    rw [scanRows_cons, scanRowCells_zero]
    rw [scanRows_cons, scanRowCells_one 3 80 4 0 ([] ++ [(1, 0 + 2)]) (by omega) (by decide)]
    rw [scanRows_zero]
    decide
  have h1 : dispatch ⟨some "POST", some "/data", List.replicate 32 none, some "[[1,2],[3,4]]"⟩
      ⟨Grid.empty, none⟩ =
      some (⟨c7grid, some (ScreenSignal.Coordinate [some (1, 2), some (3, 4)])⟩, 200, none) := by
    decide
  rw [h1]
  show (dispatch ⟨some "GET", some "/data", List.replicate 32 none, some ""⟩
    ⟨c7grid, some (ScreenSignal.Coordinate [some (1, 2), some (3, 4)])⟩).map
    (fun res => (res.2.1, res.2.2)) = some (200, some [(1, 2), (3, 4)])
  have h3 : dispatch ⟨some "GET", some "/data", List.replicate 32 none, some ""⟩
      ⟨c7grid, some (ScreenSignal.Coordinate [some (1, 2), some (3, 4)])⟩ =
      some (⟨c7grid, some (ScreenSignal.Coordinate [some (1, 2), some (3, 4)])⟩, 200,
        some (scanGrid c7grid)) := rfl
  rw [h3, h2]
  rfl

/-- C8: if two `POST /data` requests are handled back to back — two
`signal.signal(...)` sends with no intervening consumer wait — the slot
afterwards holds only the second coordinate batch, and a consumer that then
waits observes exactly that batch (the first one was overwritten, not
queued). -/
theorem claim_C8_signal_overwrite (st st1 st2 : BackendState)
    (hdrs1 hdrs2 : List (Option String)) (b1 b2 : String)
    (c1 c2 : List (Option (Nat × Nat))) (code1 code2 : Nat)
    (pay1 pay2 : Option (List (Nat × Nat)))
    (_hdec1 : decodeCoordinates b1 = some c1) (hdec2 : decodeCoordinates b2 = some c2)
    (_h1 : dispatch ⟨some "POST", some "/data", hdrs1, some b1⟩ st = some (st1, code1, pay1))
    (h2 : dispatch ⟨some "POST", some "/data", hdrs2, some b2⟩ st1 = some (st2, code2, pay2)) :
    st2.slot = some (ScreenSignal.Coordinate c2) ∧
    signalWait st2.slot = some (ScreenSignal.Coordinate c2, none) := by
  have h2a : (match decodeCoordinates b2 with
    | some coordList =>
      match applyCoordinates coordList st1.grid with
      | some g2 => some ((⟨g2, signalSend st1.slot (ScreenSignal.Coordinate coordList)⟩ :
          BackendState), 200, none)
      | none => none
    | none => some (st1, 200, none)) = some (st2, code2, pay2) := h2
  rw [hdec2] at h2a
  have h2b : (match applyCoordinates c2 st1.grid with
    | some g2 => some ((⟨g2, signalSend st1.slot (ScreenSignal.Coordinate c2)⟩ :
        BackendState), 200, none)
    | none => none) = some (st2, code2, pay2) := h2a
  cases happ : applyCoordinates c2 st1.grid with
  | none =>
    rw [happ] at h2b
    exact Option.noConfusion h2b
  | some g2 =>
    rw [happ] at h2b
    have h2c : some ((⟨g2, signalSend st1.slot (ScreenSignal.Coordinate c2)⟩ :
        BackendState), 200, none) = some (st2, code2, pay2) := h2b
    injection h2c with h2d
    have hst : (⟨g2, signalSend st1.slot (ScreenSignal.Coordinate c2)⟩ : BackendState) = st2 :=
      congrArg Prod.fst h2d
    rw [← hst]
    exact ⟨rfl, rfl⟩

/-- Witness for C8: posting `[[1,2]]` and then `[[3,4]]` from the empty state;
the waiting consumer sees only the `[[3,4]]` batch. -/
theorem claim_C8_signal_overwrite_witness :
    (⟨c7grid, some (ScreenSignal.Coordinate [some (3, 4)])⟩ : BackendState).slot =
      some (ScreenSignal.Coordinate [some (3, 4)]) ∧
    signalWait (⟨c7grid, some (ScreenSignal.Coordinate [some (3, 4)])⟩ : BackendState).slot =
      some (ScreenSignal.Coordinate [some (3, 4)], none) :=
  claim_C8_signal_overwrite ⟨Grid.empty, none⟩
    ⟨List.replicate 80 0 :: (List.replicate 80 0).set 2 1 ::
      List.replicate 62 (List.replicate 80 0), some (ScreenSignal.Coordinate [some (1, 2)])⟩
    ⟨c7grid, some (ScreenSignal.Coordinate [some (3, 4)])⟩
    (List.replicate 32 none) (List.replicate 32 none) "[[1,2]]" "[[3,4]]"
    [some (1, 2)] [some (3, 4)] 200 200 none none
    (by decide) (by decide) (by decide) (by decide)

end Esp32Drawer
